import Mathlib

/-!
Verification of `patchCertLoop` from `pilot/cmd/sidecar-injector/main.go`
(istio sidecar injector).

The Go function performs four startup steps in order —
`kube.CreateClientset`, `ioutil.ReadFile(flags.caCertFile)`,
`fsnotify.NewWatcher()`, `watcher.Watch(watchDir)` where
`watchDir, _ := filepath.Split(flags.caCertFile)` — returning the first
error encountered, and then spawns a goroutine running an infinite
`select` loop over a 1-second ticker channel and the watcher's event
channel.  On a tick it calls
`util.PatchMutatingWebhookConfig(client, flags.webhookConfigName,
flags.webhookName, caCertPem)` and logs on error; on a watcher event it
re-reads `flags.caCertFile`, replacing `caCertPem` on success and
logging on failure.

We embed the loop as a deterministic step function over an explicit
state (the cached `caCertPem` bytes plus the log), driven by a list of
events; each event carries the outcome the external world supplies at
that instant (the patch call's error, or a filesystem snapshot for the
read).  The startup sequence is embedded as a function of an
environment record holding the outcome of each external operation.
-/

/-- Byte sequences (the PEM bundle) as lists of bytes. -/
abbrev Bytes := List Nat

/-- The command-line flags `patchCertLoop` reads (fields of the Go
`flags` struct that the function uses). -/
structure Flags where
  kubeconfigFile : String
  caCertFile : String
  webhookConfigName : String
  webhookName : String
deriving DecidableEq, Repr

/-- A snapshot of the filesystem: what `ioutil.ReadFile` would return
for each path at a given instant. -/
abbrev FileSys := String → Except String Bytes

/-- One wake-up of the `select` loop, together with the outcome the
external world supplies for it:
`tick` is a firing of the 1-second ticker channel, carrying the error
result of the `util.PatchMutatingWebhookConfig` call made at that tick
(`none` = success); `fsEvent` is a message on `watcher.Event`, carrying
the path the notification is about and the filesystem snapshot against
which the loop's `ioutil.ReadFile(flags.caCertFile)` runs. -/
inductive Event where
  | tick (patchErr : Option String)
  | fsEvent (changedPath : String) (fs : FileSys)

/-- `true` on ticker firings. -/
def Event.isTick : Event → Bool
  | .tick _ => true
  | .fsEvent _ _ => false

/-- `true` on filesystem notifications. -/
def Event.isFsEvent : Event → Bool
  | .tick _ => false
  | .fsEvent _ _ => true

/-- The mutable state of the goroutine: the cached certificate bytes
(Go local `caCertPem`) and the lines logged so far via `log.Errorf`. -/
structure LoopState where
  caCertPem : Bytes
  log : List String
deriving DecidableEq, Repr

/-- A call to `util.PatchMutatingWebhookConfig`, as issued by the loop:
the webhook config resource name, the webhook entry name, and the raw
bundle bytes passed. -/
structure PatchCall where
  webhookConfigName : String
  webhookName : String
  caBundle : Bytes
deriving DecidableEq, Repr

/-- The body of the `select` statement: one iteration of the loop.
Returns the new state and the list of patch calls attempted during the
iteration (one for a tick, none for a filesystem event).

From the Go source:
```
select {
case <-tickerC:
    if err = util.PatchMutatingWebhookConfig(client...,
        flags.webhookConfigName, flags.webhookName, caCertPem); err != nil {
        log.Errorf("Patch webhook failed: %s", err)
    }
case <-watcher.Event:
    if b, err := ioutil.ReadFile(flags.caCertFile); err == nil {
        caCertPem = b
    } else {
        log.Errorf("CA bundle file read error: %v", err)
    }
}
``` -/
def stepLoop (flags : Flags) (s : LoopState) : Event → LoopState × List PatchCall
  | .tick patchErr =>
      let call : PatchCall :=
        ⟨flags.webhookConfigName, flags.webhookName, s.caCertPem⟩
      match patchErr with
      | none => (s, [call])
      | some msg =>
          ({ s with log := s.log ++ ["Patch webhook failed: " ++ msg] }, [call])
  | .fsEvent _ fs =>
      match fs flags.caCertFile with
      | .ok b => ({ s with caCertPem := b }, [])
      | .error msg =>
          ({ s with log := s.log ++ ["CA bundle file read error: " ++ msg] }, [])

/-- The infinite `for { select … } }` loop, run over a finite list of
wake-ups: processes each event to completion before the next, returning
the final state and all patch calls attempted, in order. -/
def run (flags : Flags) (s : LoopState) : List Event → LoopState × List PatchCall
  | [] => (s, [])
  | e :: es =>
      let r1 := stepLoop flags s e
      let r2 := run flags r1.1 es
      (r2.1, r1.2 ++ r2.2)

/-- The content of the most recent successful read of
`flags.caCertFile` during the events, or `cur` if no read succeeded. -/
def lastGood (flags : Flags) (cur : Bytes) : List Event → Bytes
  | [] => cur
  | .tick _ :: es => lastGood flags cur es
  | .fsEvent _ fs :: es =>
      match fs flags.caCertFile with
      | .ok b => lastGood flags b es
      | .error _ => lastGood flags cur es

/-- Go's `filepath.Split` on a separator-`/` platform: splits a path
immediately after the final slash, returning `(dir, file)` with the
trailing slash kept on `dir`. -/
def filepathSplit (path : String) : String × String :=
  let cs := path.data
  (⟨(cs.reverse.dropWhile (fun c => c ≠ '/')).reverse⟩,
   ⟨(cs.reverse.takeWhile (fun c => c ≠ '/')).reverse⟩)

/-- The interval of the loop's ticker, in seconds, as a function of the
configuration: the source arms `time.NewTicker(time.Second)`, a
hard-coded constant independent of every flag. -/
def reconcileIntervalSeconds (_flags : Flags) : Nat := 1

/-- Outcomes of the external operations performed by the startup part
of `patchCertLoop`, in source order: `kube.CreateClientset`,
`fsnotify.NewWatcher()`, `watcher.Watch(watchDir)`; plus the filesystem
snapshot against which the startup `ioutil.ReadFile(flags.caCertFile)`
runs. -/
structure StartupEnv where
  createClientset : Except String Unit
  fs : FileSys
  newWatcher : Except String Unit
  watch : Except String Unit

/-- What a successful `patchCertLoop` has set up when it returns: the
initial cached bundle (from the startup read) and the directory the
watch was registered on.  No patch call has happened yet. -/
structure ReconcilerInit where
  caCertPem : Bytes
  watchDir : String
deriving DecidableEq, Repr

/-- The startup part of `patchCertLoop`: the four external operations
in source order, short-circuiting on the first error (the `Watch` error
is wrapped as in `fmt.Errorf("could not watch %v: %v", …)`).  On
success it returns the initial loop state; the goroutine's loop is
`run` above. -/
def patchCertLoop (flags : Flags) (env : StartupEnv) : Except String ReconcilerInit :=
  match env.createClientset with
  | .error e => .error e
  | .ok _ =>
    match env.fs flags.caCertFile with
    | .error e => .error e
    | .ok caCertPem =>
      match env.newWatcher with
      | .error e => .error e
      | .ok _ =>
        let watchDir := (filepathSplit flags.caCertFile).1
        match env.watch with
        | .error e =>
            .error ("could not watch " ++ flags.caCertFile ++ ": " ++ e)
        | .ok _ => .ok ⟨caCertPem, watchDir⟩

/-- `true` when an `Except` is `ok`. -/
def exceptOk {α : Type} : Except String α → Bool
  | .ok _ => true
  | .error _ => false

/-! ## General lemmas about the loop -/

/-- Unfolding one iteration of the loop. -/
theorem run_cons (flags : Flags) (s : LoopState) (e : Event) (es : List Event) :
    run flags s (e :: es) =
      ((run flags (stepLoop flags s e).1 es).1,
        (stepLoop flags s e).2 ++ (run flags (stepLoop flags s e).1 es).2) := rfl

/-- The cached bundle after any sequence of events is the most recently
successfully read file content, or the starting value if no read
succeeded. -/
theorem run_fst_caCertPem (flags : Flags) :
    ∀ (es : List Event) (s : LoopState),
    (run flags s es).1.caCertPem = lastGood flags s.caCertPem es := by
  intro es
  induction es with
  | nil => intro s; rfl
  | cons e es ih =>
      intro s
      cases e with
      | tick p =>
          cases p with
          | none => simp [run, stepLoop, lastGood, ih]
          | some msg => simp [run, stepLoop, lastGood, ih]
      | fsEvent cp fs =>
          simp only [run, stepLoop, lastGood]
          cases h : fs flags.caCertFile with
          | ok b => simp [h, ih]
          | error msg => simp [h, ih]

/-- The loop attempts exactly one patch call per ticker firing and none
for a filesystem notification. -/
theorem run_snd_length (flags : Flags) :
    ∀ (es : List Event) (s : LoopState),
    (run flags s es).2.length = es.countP Event.isTick := by
  intro es
  induction es with
  | nil => intro s; rfl
  | cons e es ih =>
      intro s
      cases e with
      | tick p =>
          cases p <;> simp [run, stepLoop, List.countP_cons, Event.isTick, ih]
      | fsEvent cp fs =>
          simp only [run, stepLoop]
          cases h : fs flags.caCertFile <;>
            simp [h, List.countP_cons, Event.isTick, ih]

/-- The behavior of the loop (cached bytes and patch calls) does not
depend on what has been logged. -/
theorem run_log_irrel (flags : Flags) :
    ∀ (es : List Event) (b : Bytes) (l l' : List String),
    (run flags ⟨b, l⟩ es).1.caCertPem = (run flags ⟨b, l'⟩ es).1.caCertPem ∧
    (run flags ⟨b, l⟩ es).2 = (run flags ⟨b, l'⟩ es).2 := by
  intro es
  induction es with
  | nil => intro b l l'; exact ⟨rfl, rfl⟩
  | cons e es ih =>
      intro b l l'
      cases e with
      | tick p =>
          cases p with
          | none => simpa [run, stepLoop] using ih b l l'
          | some msg =>
              simpa [run, stepLoop] using
                ih b (l ++ ["Patch webhook failed: " ++ msg])
                  (l' ++ ["Patch webhook failed: " ++ msg])
      | fsEvent cp fs =>
          simp only [run, stepLoop]
          cases h : fs flags.caCertFile with
          | ok bb => simpa [h] using ih bb l l'
          | error msg =>
              simpa [h] using
                ih b (l ++ ["CA bundle file read error: " ++ msg])
                  (l' ++ ["CA bundle file read error: " ++ msg])

/-- Running the loop over a concatenation of event lists processes the
first list to completion before the second. -/
theorem run_append (flags : Flags) :
    ∀ (es₁ es₂ : List Event) (s : LoopState),
    run flags s (es₁ ++ es₂) =
      ((run flags (run flags s es₁).1 es₂).1,
        (run flags s es₁).2 ++ (run flags (run flags s es₁).1 es₂).2) := by
  intro es₁
  induction es₁ with
  | nil => intro es₂ s; simp [run]
  | cons e es ih =>
      intro es₂ s
      simp only [List.cons_append, run, List.append_eq]
      rw [ih es₂ (stepLoop flags s e).1]
      simp [List.append_assoc]

/-- A sequence of events containing no ticker firing produces no patch
call. -/
theorem run_no_tick (flags : Flags) :
    ∀ (es : List Event) (s : LoopState),
    (∀ e ∈ es, e.isTick = false) → (run flags s es).2 = [] := by
  intro es s h
  have hc : es.countP Event.isTick = 0 := by
    rw [List.countP_eq_zero]
    intro e he
    simpa using h e he
  have := run_snd_length flags es s
  rw [hc] at this
  exact List.length_eq_zero.mp this

/-- The two halves of `filepathSplit` concatenate back to the path. -/
theorem filepathSplit_data (p : String) :
    (filepathSplit p).1.data ++ (filepathSplit p).2.data = p.data := by
  show (p.data.reverse.dropWhile (fun c => c ≠ '/')).reverse ++
      (p.data.reverse.takeWhile (fun c => c ≠ '/')).reverse = p.data
  rw [← List.reverse_append, List.takeWhile_append_dropWhile, List.reverse_reverse]

/-- When a path has a nonempty file component, its directory part is a
strictly shorter string, hence differs from the path itself. -/
theorem filepathSplit_ne (p : String) (h : (filepathSplit p).2 ≠ "") :
    (filepathSplit p).1 ≠ p := by
  intro hd
  apply h
  have hdata := filepathSplit_data p
  rw [hd] at hdata
  have hlen : (filepathSplit p).2.data.length = 0 := by
    have h2 := congrArg List.length hdata
    rw [List.length_append] at h2
    omega
  exact String.ext (List.eq_nil_of_length_eq_zero hlen)

/-- A successful `patchCertLoop` cached exactly the bytes read from the
configured certificate file, and registered the watch on the directory
part of that path. -/
theorem patchCertLoop_ok_elim (flags : Flags) (env : StartupEnv)
    (r : ReconcilerInit) (h : patchCertLoop flags env = .ok r) :
    env.fs flags.caCertFile = .ok r.caCertPem ∧
    r.watchDir = (filepathSplit flags.caCertFile).1 := by
  cases hc : env.createClientset <;>
  cases hr : env.fs flags.caCertFile <;>
  cases hw : env.newWatcher <;>
  cases hv : env.watch <;>
  simp_all [patchCertLoop]
  cases h
  exact ⟨rfl, rfl⟩

/-! ## Concrete fixtures for witnesses and counterexamples -/

/-- Concrete flags: the default flag values from the source. -/
def flagsA : Flags :=
  ⟨"", "/etc/istio/certs/root-cert.pem", "istio-sidecar-injector",
   "sidecar-injector.istio.io"⟩

/-- A second configuration differing from `flagsA` in every field. -/
def flagsB : Flags :=
  ⟨"/kube/config", "/other/ca.pem", "other-config", "other-webhook"⟩

/-- An environment where every startup operation succeeds and every
file reads as the single byte 65. -/
def envGood : StartupEnv := ⟨.ok (), fun _ => .ok [65], .ok (), .ok ()⟩

/-- An environment where only the API client creation fails. -/
def envClientFail : StartupEnv :=
  ⟨.error "no client", fun _ => .ok [65], .ok (), .ok ()⟩

/-- An environment where the certificate file reads successfully but is
empty. -/
def envEmptyFile : StartupEnv := ⟨.ok (), fun _ => .ok [], .ok (), .ok ()⟩

/-- A filesystem snapshot on which every read fails. -/
def fsMissing : FileSys := fun _ => .error "no such file"

/-- A filesystem snapshot on which every read yields the byte 66. -/
def fsB : FileSys := fun _ => .ok [66]

/-- A burst of two filesystem events, the later one reading 66. -/
def burstW : List Event := [.fsEvent "a" (fun _ => .ok [7]), .fsEvent "b" fsB]

/-! ## Claim theorems -/

/-- Claim C1: at every timer tick the value passed to the patch
operation is, byte for byte, the cached certificate bundle, which at
that instant equals the content of the most recent successful read of
the certificate file during the preceding events, or the starting
(initial-read) value if no refresh has succeeded; the bytes are passed
verbatim, never transformed. -/
theorem tick_patches_cached_lastGood (flags : Flags) (s : LoopState)
    (es : List Event) (patchErr : Option String) :
    (run flags s es).1.caCertPem = lastGood flags s.caCertPem es ∧
    (stepLoop flags (run flags s es).1 (.tick patchErr)).2 =
      [⟨flags.webhookConfigName, flags.webhookName,
        lastGood flags s.caCertPem es⟩] := by
  have h := run_fst_caCertPem flags es s
  refine ⟨h, ?_⟩
  cases patchErr <;> simp [stepLoop, h]

/-- Claim C2: a refresh whose file read fails leaves the cached bundle
unchanged (only a log line is appended), issues no patch, and every
subsequent patch call is exactly what it would have been without the
failed read. -/
theorem failed_refresh_preserves_cache (flags : Flags) (s : LoopState)
    (cp : String) (fs : FileSys) (msg : String)
    (h : fs flags.caCertFile = .error msg) (es : List Event) :
    (stepLoop flags s (.fsEvent cp fs)).1.caCertPem = s.caCertPem ∧
    (stepLoop flags s (.fsEvent cp fs)).2 = [] ∧
    (stepLoop flags s (.fsEvent cp fs)).1.log =
      s.log ++ ["CA bundle file read error: " ++ msg] ∧
    (run flags (stepLoop flags s (.fsEvent cp fs)).1 es).2 =
      (run flags s es).2 := by
  obtain ⟨b, l⟩ := s
  refine ⟨by simp [stepLoop, h], by simp [stepLoop, h],
    by simp [stepLoop, h], ?_⟩
  have hs : (stepLoop flags ⟨b, l⟩ (.fsEvent cp fs)).1 =
      ⟨b, l ++ ["CA bundle file read error: " ++ msg]⟩ := by
    simp [stepLoop, h]
  rw [hs]
  exact (run_log_irrel flags es b _ l).2

/-- Witness for C2 at a concrete failing read. -/
theorem failed_refresh_preserves_cache_witness :
    fsMissing flagsA.caCertFile = .error "no such file" ∧
    ((stepLoop flagsA ⟨[65], []⟩ (.fsEvent "x" fsMissing)).1.caCertPem = [65] ∧
     (stepLoop flagsA ⟨[65], []⟩ (.fsEvent "x" fsMissing)).2 = [] ∧
     (stepLoop flagsA ⟨[65], []⟩ (.fsEvent "x" fsMissing)).1.log =
       [] ++ ["CA bundle file read error: " ++ "no such file"] ∧
     (run flagsA (stepLoop flagsA ⟨[65], []⟩ (.fsEvent "x" fsMissing)).1
        [Event.tick none]).2 =
       (run flagsA ⟨[65], []⟩ [Event.tick none]).2) :=
  ⟨rfl, failed_refresh_preserves_cache flagsA ⟨[65], []⟩ "x" fsMissing
    "no such file" rfl [Event.tick none]⟩

/-- Over any number of consecutive ticks whose patch call fails, the
loop emits exactly one patch attempt per tick, each carrying the
unchanged cached bundle. -/
theorem run_failing_ticks (flags : Flags) (msg : String) :
    ∀ (k : Nat) (b : Bytes) (l : List String),
    (run flags ⟨b, l⟩ (List.replicate k (Event.tick (some msg)))).2 =
      List.replicate k ⟨flags.webhookConfigName, flags.webhookName, b⟩ ∧
    (run flags ⟨b, l⟩ (List.replicate k (Event.tick (some msg)))).1.caCertPem
      = b := by
  intro k
  induction k with
  | zero => intro b l; exact ⟨rfl, rfl⟩
  | succ k ih =>
      intro b l
      obtain ⟨h1, h2⟩ := ih b (l ++ ["Patch webhook failed: " ++ msg])
      have hstep : stepLoop flags ⟨b, l⟩ (Event.tick (some msg)) =
          (⟨b, l ++ ["Patch webhook failed: " ++ msg]⟩,
            [⟨flags.webhookConfigName, flags.webhookName, b⟩]) := rfl
      rw [List.replicate_succ, List.replicate_succ, run_cons, hstep]
      exact ⟨by simpa using h1, by simpa using h2⟩

/-- Claim C3: a patch failure is logged and never terminates the loop
or changes its state: over consecutive failing ticks the loop attempts
exactly one patch per tick with the unchanged cached bundle, so after
k consecutive failures the (k+1)-th tick still attempts a patch. -/
theorem patch_failure_retried_every_tick (flags : Flags) (k : Nat)
    (s : LoopState) (msg : String) :
    (run flags s (List.replicate (k+1) (Event.tick (some msg)))).2 =
      List.replicate (k+1)
        ⟨flags.webhookConfigName, flags.webhookName, s.caCertPem⟩ ∧
    (run flags s (List.replicate (k+1) (Event.tick (some msg)))).1.caCertPem
      = s.caCertPem := by
  obtain ⟨b, l⟩ := s
  exact run_failing_ticks flags msg (k+1) b l

/-- Claim C4 counterexample: with a failing API-client creation but a
readable certificate file and successful watch registration,
`patchCertLoop` still fails to start, so startup failure is not
equivalent to "initial read failed or watch registration failed" —
client creation (and watcher creation) are further failure causes. -/
theorem startup_failure_exact_counterexample :
    ¬ (∀ (flags : Flags) (env : StartupEnv),
        exceptOk (patchCertLoop flags env) = false ↔
          (exceptOk (env.fs flags.caCertFile) = false ∨
            exceptOk env.watch = false)) := by
  intro h
  have h2 := (h flagsA envClientFail).mp rfl
  rcases h2 with h2 | h2 <;> exact absurd h2 (by decide)

/-- Claim C4 (amended): `patchCertLoop` fails — and the background loop
is never started — exactly when one of the four startup operations
fails: API client creation, the initial certificate read, watcher
creation, or the directory watch registration. -/
theorem startup_failure_exact_amended (flags : Flags) (env : StartupEnv) :
    exceptOk (patchCertLoop flags env) = false ↔
      (exceptOk env.createClientset = false ∨
        exceptOk (env.fs flags.caCertFile) = false ∨
        exceptOk env.newWatcher = false ∨
        exceptOk env.watch = false) := by
  cases hc : env.createClientset <;>
  cases hr : env.fs flags.caCertFile <;>
  cases hw : env.newWatcher <;>
  cases hv : env.watch <;>
  simp [patchCertLoop, exceptOk, hc, hr, hw, hv]

/-- Claim C5: handling a filesystem event never issues a patch; over a
burst of filesystem events followed by a single tick, exactly one
patch call is made, carrying the most recently read value. -/
theorem fs_event_coalescing (flags : Flags) (s : LoopState)
    (cp : String) (fs : FileSys) (bs : List Event)
    (hbs : ∀ e ∈ bs, e.isFsEvent = true) (p : Option String) :
    (stepLoop flags s (.fsEvent cp fs)).2 = [] ∧
    (run flags s (bs ++ [Event.tick p])).2 =
      [⟨flags.webhookConfigName, flags.webhookName,
        lastGood flags s.caCertPem bs⟩] := by
  constructor
  · cases h : fs flags.caCertFile <;> simp [stepLoop, h]
  · rw [run_append]
    have hnt : ∀ e ∈ bs, e.isTick = false := by
      intro e he
      have := hbs e he
      cases e <;> simp_all [Event.isFsEvent, Event.isTick]
    rw [run_no_tick flags bs s hnt]
    have hl := run_fst_caCertPem flags bs s
    cases p <;> simp [run, stepLoop, hl]

/-- Witness for C5: a burst of two filesystem events then one tick
produces exactly one patch with the last read value. -/
theorem fs_event_coalescing_witness :
    (∀ e ∈ burstW, e.isFsEvent = true) ∧
    ((stepLoop flagsA ⟨[65], []⟩ (.fsEvent "x" fsB)).2 = [] ∧
      (run flagsA ⟨[65], []⟩ (burstW ++ [Event.tick none])).2 =
        [⟨flagsA.webhookConfigName, flagsA.webhookName,
          lastGood flagsA [65] burstW⟩]) := by
  have hb : ∀ e ∈ burstW, e.isFsEvent = true := by
    simp [burstW, Event.isFsEvent]
  exact ⟨hb, fs_event_coalescing flagsA ⟨[65], []⟩ "x" fsB burstW hb none⟩

/-- Claim C6 counterexample: the ticker interval is identical for every
configuration — two configurations differing in every flag field yield
the same interval, and no pair of configurations yields different
intervals — so the interval is not a configuration input. -/
theorem interval_not_config_counterexample :
    flagsA ≠ flagsB ∧
    reconcileIntervalSeconds flagsA = reconcileIntervalSeconds flagsB ∧
    ¬ ∃ f g : Flags, reconcileIntervalSeconds f ≠ reconcileIntervalSeconds g := by
  refine ⟨by decide, rfl, ?_⟩
  rintro ⟨f, g, h⟩
  exact h rfl

/-- Claim C6 (amended): the certificate path and the target names are
configuration inputs used by the loop, but the reconciliation interval
is a hard-coded constant of one second, identical for every
configuration and immutable for the process's lifetime. -/
theorem interval_fixed_one_second (flags : Flags) (s : LoopState) :
    reconcileIntervalSeconds flags = 1 ∧
    (stepLoop flags s (.tick none)).2 =
      [⟨flags.webhookConfigName, flags.webhookName, s.caCertPem⟩] :=
  ⟨rfl, rfl⟩

/-- Claim C7 counterexample: a readable but empty certificate file
makes construction succeed with an empty cached bundle — construction
does not fail on an empty initial read. -/
theorem empty_bundle_counterexample :
    patchCertLoop flagsA envEmptyFile = .ok ⟨[], "/etc/istio/certs/"⟩ := rfl

/-- Claim C7 (amended): after successful construction the cached
bundle is exactly the bytes returned by the initial read of the
certificate file — possibly empty, with no emptiness check —
and construction fails only when a startup operation itself fails. -/
theorem construction_caches_read_bytes (flags : Flags) (env : StartupEnv)
    (r : ReconcilerInit) (h : patchCertLoop flags env = .ok r) :
    env.fs flags.caCertFile = .ok r.caCertPem :=
  (patchCertLoop_ok_elim flags env r h).1

/-- Witness for C7 (amended) at a concrete successful startup. -/
theorem construction_caches_read_bytes_witness :
    patchCertLoop flagsA envGood = .ok ⟨[65], "/etc/istio/certs/"⟩ ∧
    envGood.fs flagsA.caCertFile =
      .ok (ReconcilerInit.mk [65] "/etc/istio/certs/").caCertPem :=
  ⟨rfl, construction_caches_read_bytes flagsA envGood
    ⟨[65], "/etc/istio/certs/"⟩ rfl⟩

/-- Claim C8: the watch is registered on the containing directory of
the certificate file (per `filepath.Split`), which differs from the
file path itself whenever the path has a file component; and handling
a filesystem event reads only the configured certificate path — its
outcome is independent of which path the event reports as changed. -/
theorem watch_registered_on_directory (flags : Flags) (env : StartupEnv)
    (r : ReconcilerInit) (h : patchCertLoop flags env = .ok r)
    (hfile : (filepathSplit flags.caCertFile).2 ≠ "") :
    r.watchDir = (filepathSplit flags.caCertFile).1 ∧
    r.watchDir ≠ flags.caCertFile ∧
    (∀ (s : LoopState) (p q : String) (fs : FileSys),
      stepLoop flags s (.fsEvent p fs) = stepLoop flags s (.fsEvent q fs)) := by
  have hd := (patchCertLoop_ok_elim flags env r h).2
  refine ⟨hd, ?_, ?_⟩
  · rw [hd]
    exact filepathSplit_ne flags.caCertFile hfile
  · intro s p q fs
    rfl

/-- Witness for C8 at a concrete successful startup. -/
theorem watch_registered_on_directory_witness :
    (patchCertLoop flagsA envGood = .ok ⟨[65], "/etc/istio/certs/"⟩ ∧
      (filepathSplit flagsA.caCertFile).2 ≠ "") ∧
    ((ReconcilerInit.mk [65] "/etc/istio/certs/").watchDir =
        (filepathSplit flagsA.caCertFile).1 ∧
      (ReconcilerInit.mk [65] "/etc/istio/certs/").watchDir ≠ flagsA.caCertFile ∧
      (∀ (s : LoopState) (p q : String) (fs : FileSys),
        stepLoop flagsA s (.fsEvent p fs) = stepLoop flagsA s (.fsEvent q fs))) := by
  have h1 : patchCertLoop flagsA envGood = .ok ⟨[65], "/etc/istio/certs/"⟩ := rfl
  have h2 : (filepathSplit flagsA.caCertFile).2 ≠ "" := by decide
  exact ⟨⟨h1, h2⟩,
    watch_registered_on_directory flagsA envGood ⟨[65], "/etc/istio/certs/"⟩ h1 h2⟩

/-- Claim C10: `patchCertLoop` returns success exactly when its four
startup operations succeed (API client creation, initial certificate
read, watcher creation, directory watch registration); and at the
moment of return no patch has been attempted — the loop issues no
patch call before the first ticker firing: any event sequence without
a tick produces no patch. -/
theorem startup_success_guarantees (flags : Flags) (env : StartupEnv) :
    (exceptOk (patchCertLoop flags env) = true ↔
      (exceptOk env.createClientset = true ∧
        exceptOk (env.fs flags.caCertFile) = true ∧
        exceptOk env.newWatcher = true ∧
        exceptOk env.watch = true)) ∧
    (∀ (s : LoopState) (es : List Event),
      (∀ e ∈ es, e.isTick = false) → (run flags s es).2 = []) := by
  constructor
  · cases hc : env.createClientset <;>
    cases hr : env.fs flags.caCertFile <;>
    cases hw : env.newWatcher <;>
    cases hv : env.watch <;>
    simp [patchCertLoop, exceptOk, hc, hr, hw, hv]
  · intro s es h
    exact run_no_tick flags es s h

/-- Witness for C10: at a concrete environment, a tickless event
sequence yields no patch call. -/
theorem startup_success_guarantees_witness :
    (∀ e ∈ [Event.fsEvent "x" fsB], e.isTick = false) ∧
    (run flagsA ⟨[65], []⟩ [Event.fsEvent "x" fsB]).2 = [] := by
  have h : ∀ e ∈ [Event.fsEvent "x" fsB], e.isTick = false := by
    simp [Event.isTick]
  exact ⟨h, (startup_success_guarantees flagsA envGood).2 ⟨[65], []⟩
    [Event.fsEvent "x" fsB] h⟩
